import Mathlib

/-!
Shallow embedding of `gpu-cpu-fan-control.py` (class `FanController`), a
closed-loop thermal fan governor.  Pure logic (threshold policy, maxima
aggregation, state tracking) is translated directly; interaction with the
outside world (subprocess results, sysfs file reads) is parameterised by an
explicit environment value describing what each external source returns.
-/

namespace FanControl

/-! ### Configuration constants (`FanController.__init__`) -/

def GPU_TEMP_LOW : Int := 50
def GPU_TEMP_MEDIUM : Int := 60
def GPU_TEMP_HIGH : Int := 70
def GPU_TEMP_CRITICAL : Int := 80

def CPU_TEMP_LOW : Int := 35
def CPU_TEMP_MEDIUM : Int := 45
def CPU_TEMP_HIGH : Int := 60
def CPU_TEMP_CRITICAL : Int := 75

def UTIL_LOW : Int := 30
def UTIL_HIGH : Int := 70

/-- `self.FAN_DEFAULT = 0x20`. -/
def FAN_DEFAULT : Nat := 0x20

/-- `self.FAN_MEDIUM = 0x32`. -/
def FAN_MEDIUM : Nat := 0x32

/-- `self.FAN_HIGH = 0x48`. -/
def FAN_HIGH : Nat := 0x48

/-- `self.FAN_MAX = 0x64`. -/
def FAN_MAX : Nat := 0x64

/-- The mutable state of a `FanController` instance that the control logic
touches: `self.current_speed`. -/
structure FCState where
  current_speed : Nat
deriving DecidableEq, Repr

/-! ### `FanController.determine_fan_speed` -/

/-- `determine_fan_speed(self, gpu_temp, cpu_temp, gpu_util)`: the
five-branch `if/elif/else` cascade, first match wins; the `else` branch
returns `self.current_speed`. -/
def determine_fan_speed (st : FCState) (gpu_temp cpu_temp gpu_util : Int) :
    Nat × String :=
  if gpu_temp ≥ GPU_TEMP_CRITICAL ∨ cpu_temp ≥ CPU_TEMP_CRITICAL then
    (FAN_MAX, s!"CRITICAL temperature (GPU: {gpu_temp}°C, CPU: {cpu_temp}°C)")
  else if gpu_temp ≥ GPU_TEMP_HIGH ∨ cpu_temp ≥ CPU_TEMP_HIGH then
    (FAN_HIGH, s!"HIGH temperature (GPU: {gpu_temp}°C, CPU: {cpu_temp}°C)")
  else if gpu_temp ≥ GPU_TEMP_MEDIUM ∨ cpu_temp ≥ CPU_TEMP_MEDIUM ∨
      gpu_util ≥ UTIL_HIGH then
    (FAN_MEDIUM, "MEDIUM temperature or HIGH utilization")
  else if gpu_temp < GPU_TEMP_LOW ∧ cpu_temp < CPU_TEMP_LOW ∧
      gpu_util < UTIL_LOW then
    (FAN_DEFAULT, "LOW temperatures and utilization")
  else
    (st.current_speed, "maintaining current level")

/-! ### `run_command` and external command outcomes -/

/-- Outcome of the subprocess behind one `run_command` call: exit 0 with
this stdout, or a non-zero exit, which `subprocess.run(..., check=True)`
surfaces as `CalledProcessError`. -/
inductive CmdOutcome
  | ok (stdout : String)
  | fail
deriving DecidableEq, Repr

/-- `run_command(self, command, capture_output=True)`: returns
`result.stdout.strip()` on success when capturing, `None` otherwise; a
`CalledProcessError` is caught inside, logged, and `None` returned, so the
failure never propagates to the caller. -/
def run_command (out : CmdOutcome) (capture_output : Bool) : Option String :=
  match out with
  | .ok stdout => if capture_output then some stdout.trim else none
  | .fail => none

/-! ### Environment of external readings

The numeric-literal extraction each parsing loop performs on a line of
subprocess output is abstracted into the per-line classification the code's
conditionals and `int(...)`/`float(...)` calls induce; the control flow
around it (skipping, exception propagation, maxima) is kept verbatim. -/

/-- One line of `sensors` output as `get_cpu_temp`'s fallback loop
classifies it: a line without both `"Package id"` and `"°C"` (skipped); a
matching line where `line.split('+')[1]` or `float(...)` raises
(`IndexError`/`ValueError`); or a matching line whose `int(float(...))`
value is `t`. -/
inductive SensLine
  | noMatch
  | malformed
  | packageTemp (t : Int)
deriving DecidableEq, Repr

/-- One line of the `nvidia-smi` query output as `get_gpu_data`'s loop
classifies it: blank (`line.strip()` falsy, skipped); fewer than two
comma-separated fields (skipped); a field on which `int(...)` raises
`ValueError`; or a parsed `(temperature, utilization)` row. -/
inductive GpuLine
  | blank
  | short
  | malformed
  | row (temp util : Int)
deriving DecidableEq, Repr

/-- Everything the outside world feeds one control cycle.
`thermalZones`: per globbed `thermal_zone*/temp` file, `none` when
`open`/`int()` raises (`FileNotFoundError`/`ValueError`/`PermissionError`),
else the millidegree integer read. `sensorsOutput`/`nvidiaOutput`: the
`run_command` result (`none` when the command failed and `run_command`
returned `None`), classified line by line. `manualRes`/`speedRes`: the
outcomes of the two `ipmitool` commands `set_fan_speed` issues. -/
structure Env where
  thermalZones : List (Option Int)
  sensorsOutput : Option (List SensLine)
  nvidiaOutput : Option (List GpuLine)
  manualRes : CmdOutcome
  speedRes : CmdOutcome
deriving DecidableEq, Repr

/-- The observable external commands a code path issues, in order. -/
inductive Cmd
  | ipmiManualOn
  | ipmiSetSpeed (v : Nat)
  | ipmiAutoOn
  | sensorsQuery
  | nvidiaQuery
deriving DecidableEq, Repr

/-! ### `get_cpu_temp` -/

/-- Method 1 of `get_cpu_temp`: fold over the thermal-zone files, each
failing read caught and skipped (`except ...: continue`), each successful
millidegree reading floor-divided by 1000 and folded into the running
maximum `max_temp`. -/
def cpuZoneScan : List (Option Int) → Int → Int
  | [], max_temp => max_temp
  | none :: rest, max_temp => cpuZoneScan rest max_temp
  | some m :: rest, max_temp =>
      let temp_celsius := Int.fdiv m 1000
      cpuZoneScan rest (if temp_celsius > max_temp then temp_celsius else max_temp)

/-- Method 2's inner loop over `sensors` lines: a malformed matching line
raises, aborting the loop (`.error` carries the `max_temp` accumulated so
far, which the enclosing `except` keeps); otherwise the Package-id values
fold into the maximum. -/
def sensorsScan : List SensLine → Int → Except Int Int
  | [], max_temp => .ok max_temp
  | .noMatch :: rest, max_temp => sensorsScan rest max_temp
  | .malformed :: _, max_temp => .error max_temp
  | .packageTemp t :: rest, max_temp =>
      sensorsScan rest (if t > max_temp then t else max_temp)

/-- The value `max_temp` holds after the method-2 loop, whether the loop
finished or its exception was caught by the surrounding `except`. -/
def sensValue : Except Int Int → Int
  | .ok v => v
  | .error v => v

/-- `get_cpu_temp(self)`: thermal-zone maximum; when that left `max_temp`
at 0, run `sensors` (command issued either way in that branch) and fold its
Package-id lines into the maximum, a parse exception caught with the
accumulated value kept. Returns the temperature and the commands issued. -/
def get_cpu_temp (env : Env) : Int × List Cmd :=
  let max1 := cpuZoneScan env.thermalZones 0
  if max1 = 0 then
    match env.sensorsOutput with
    | none => (max1, [Cmd.sensorsQuery])
    | some lines =>
        match sensorsScan lines max1 with
        | .ok max_temp => (max_temp, [Cmd.sensorsQuery])
        | .error max_temp => (max_temp, [Cmd.sensorsQuery])
  else (max1, [])

/-! ### `get_gpu_data` -/

/-- The parsing loop of `get_gpu_data`: blank and short lines are skipped,
a `ValueError` propagates out of the loop (`.error`), rows fold into the
column maxima. -/
def gpuScan : List GpuLine → Int → Int → Except Unit (Int × Int)
  | [], max_temp, max_util => .ok (max_temp, max_util)
  | .blank :: rest, max_temp, max_util => gpuScan rest max_temp max_util
  | .short :: rest, max_temp, max_util => gpuScan rest max_temp max_util
  | .malformed :: _, _, _ => .error ()
  | .row temp util :: rest, max_temp, max_util =>
      gpuScan rest (if temp > max_temp then temp else max_temp)
        (if util > max_util then util else max_util)

/-- `get_gpu_data(self)`: issues the `nvidia-smi` query; `if not output:
return 0, 0` when `run_command` returned `None`; otherwise the per-line
maxima, with any exception caught by the outer `except` and `(0, 0)`
returned. -/
def get_gpu_data (env : Env) : (Int × Int) × List Cmd :=
  match env.nvidiaOutput with
  | none => ((0, 0), [Cmd.nvidiaQuery])
  | some lines =>
      match gpuScan lines 0 0 with
      | .ok r => (r, [Cmd.nvidiaQuery])
      | .error _ => ((0, 0), [Cmd.nvidiaQuery])

end FanControl

namespace FanControl

/-! ### Helper lemmas on the scans -/

theorem cpuZoneScan_le (zones : List (Option Int)) (mt : Int) :
    mt ≤ cpuZoneScan zones mt := by
  induction zones generalizing mt with
  | nil => simp [cpuZoneScan]
  | cons z rest ih =>
    cases z with
    | none => exact ih mt
    | some m =>
      simp only [cpuZoneScan]
      refine le_trans ?_ (ih _)
      split <;> omega

theorem sensValue_sensorsScan_le (lines : List SensLine) (mt : Int) :
    mt ≤ sensValue (sensorsScan lines mt) := by
  induction lines generalizing mt with
  | nil => simp [sensorsScan, sensValue]
  | cons l rest ih =>
    cases l with
    | noMatch => exact ih mt
    | malformed => simp [sensorsScan, sensValue]
    | packageTemp t =>
      simp only [sensorsScan]
      refine le_trans ?_ (ih _)
      split <;> omega

theorem gpuScan_ok_le (lines : List GpuLine) (t u : Int) (v : Int × Int)
    (h : gpuScan lines t u = .ok v) : t ≤ v.1 ∧ u ≤ v.2 := by
  induction lines generalizing t u with
  | nil =>
    simp only [gpuScan, Except.ok.injEq] at h
    subst h; exact ⟨le_refl _, le_refl _⟩
  | cons l rest ih =>
    cases l with
    | blank => exact ih t u h
    | short => exact ih t u h
    | malformed => simp [gpuScan] at h
    | row temp util =>
      simp only [gpuScan] at h
      have := ih _ _ h
      constructor
      · refine le_trans ?_ this.1
        split <;> omega
      · refine le_trans ?_ this.2
        split <;> omega

/-- `get_cpu_temp` in closed form: the zone maximum when positive,
otherwise the sensors-fallback value together with the issued command. -/
theorem get_cpu_temp_eq (env : Env) :
    get_cpu_temp env =
      if cpuZoneScan env.thermalZones 0 = 0 then
        ((match env.sensorsOutput with
          | none => 0
          | some lines => sensValue (sensorsScan lines 0)), [Cmd.sensorsQuery])
      else (cpuZoneScan env.thermalZones 0, []) := by
  unfold get_cpu_temp
  by_cases h : cpuZoneScan env.thermalZones 0 = 0
  · simp only [h, if_pos rfl, reduceIte]
    cases env.sensorsOutput with
    | none => rfl
    | some lines =>
      simp only []
      cases hs : sensorsScan lines 0 with
      | ok v => simp [sensValue, hs]
      | error v => simp [sensValue, hs]
  · simp [h]

/-- C3: For every snapshot with `gpu_temp ≥ GPU_TEMP_CRITICAL` (80) or
`cpu_temp ≥ CPU_TEMP_CRITICAL` (75), and for every current level,
`determine_fan_speed` returns the MAX fan level. -/
theorem critical_forces_max (st : FCState) (gpu_temp cpu_temp gpu_util : Int)
    (h : gpu_temp ≥ GPU_TEMP_CRITICAL ∨ cpu_temp ≥ CPU_TEMP_CRITICAL) :
    (determine_fan_speed st gpu_temp cpu_temp gpu_util).1 = FAN_MAX := by
  unfold determine_fan_speed
  rw [if_pos h]

/-- Witness for C3: a concrete critical snapshot (gpu = 85, cpu = 40,
util = 10, current level HIGH) is driven to MAX. -/
theorem critical_forces_max_witness :
    (determine_fan_speed ⟨FAN_HIGH⟩ 85 40 10).1 = FAN_MAX :=
  critical_forces_max ⟨FAN_HIGH⟩ 85 40 10 (Or.inl (by decide))

/-- C4: in the hysteresis dead zone (below the medium breakpoints and below
UTIL_HIGH, yet not all of gpu < LOW, cpu < LOW, util < UTIL_LOW),
`determine_fan_speed` keeps the current level, reason
"maintaining current level". -/
theorem dead_zone_maintains (st : FCState) (gpu_temp cpu_temp gpu_util : Int)
    (hg : gpu_temp < GPU_TEMP_MEDIUM) (hc : cpu_temp < CPU_TEMP_MEDIUM)
    (hu : gpu_util < UTIL_HIGH)
    (hnl : ¬(gpu_temp < GPU_TEMP_LOW ∧ cpu_temp < CPU_TEMP_LOW ∧
      gpu_util < UTIL_LOW)) :
    determine_fan_speed st gpu_temp cpu_temp gpu_util =
      (st.current_speed, "maintaining current level") := by
  simp only [GPU_TEMP_MEDIUM] at hg
  simp only [CPU_TEMP_MEDIUM] at hc
  simp only [UTIL_HIGH] at hu
  simp only [GPU_TEMP_LOW, CPU_TEMP_LOW, UTIL_LOW] at hnl
  unfold determine_fan_speed
  simp only [GPU_TEMP_LOW, GPU_TEMP_MEDIUM, GPU_TEMP_HIGH, GPU_TEMP_CRITICAL,
    CPU_TEMP_LOW, CPU_TEMP_MEDIUM, CPU_TEMP_HIGH, CPU_TEMP_CRITICAL,
    UTIL_LOW, UTIL_HIGH]
  have c1 : ¬(gpu_temp ≥ (80 : Int) ∨ cpu_temp ≥ (75 : Int)) := by omega
  have c2 : ¬(gpu_temp ≥ (70 : Int) ∨ cpu_temp ≥ (60 : Int)) := by omega
  have c3 : ¬(gpu_temp ≥ (60 : Int) ∨ cpu_temp ≥ (45 : Int) ∨
      gpu_util ≥ (70 : Int)) := by omega
  rw [if_neg c1, if_neg c2, if_neg c3, if_neg hnl]

/-- Witness for C4: snapshot (gpu = 55, cpu = 30, util = 20) with current
level HIGH stays at HIGH. -/
theorem dead_zone_maintains_witness :
    determine_fan_speed ⟨FAN_HIGH⟩ 55 30 20 =
      (FAN_HIGH, "maintaining current level") :=
  dead_zone_maintains ⟨FAN_HIGH⟩ 55 30 20 (by decide) (by decide) (by decide)
    (by decide)

/-- C8: the level-to-duty mapping is strictly monotonically increasing:
`FAN_DEFAULT < FAN_MEDIUM < FAN_HIGH < FAN_MAX` (0x20 < 0x32 < 0x48 < 0x64). -/
theorem duty_mapping_strict_mono :
    FAN_DEFAULT < FAN_MEDIUM ∧ FAN_MEDIUM < FAN_HIGH ∧ FAN_HIGH < FAN_MAX := by
  decide

theorem ite_gt_eq_max (a b : Int) : (if b > a then b else a) = max a b := by
  simp only [max_def]
  split <;> split <;> omega

/-- `cpuZoneScan` is the fold of `max` over the floor-converted readable
zone readings. -/
theorem cpuZoneScan_eq_foldl (zones : List (Option Int)) (mt : Int) :
    cpuZoneScan zones mt =
      ((zones.filterMap id).map (fun m => Int.fdiv m 1000)).foldl max mt := by
  induction zones generalizing mt with
  | nil => rfl
  | cons z rest ih =>
    cases z with
    | none => simpa [List.filterMap_cons] using ih mt
    | some m =>
      simp only [cpuZoneScan, List.filterMap_cons, id, List.map_cons,
        List.foldl_cons, ite_gt_eq_max]
      exact ih _

/-- C10: `run_command` never propagates a subprocess failure: a non-zero
exit yields `none`, and a success yields the stripped stdout exactly when
`capture_output` is set. -/
theorem run_command_no_propagation :
    (∀ capture_output, run_command CmdOutcome.fail capture_output = none) ∧
    (∀ stdout, run_command (CmdOutcome.ok stdout) true = some stdout.trim) ∧
    (∀ stdout, run_command (CmdOutcome.ok stdout) false = none) :=
  ⟨fun _ => rfl, fun _ => rfl, fun _ => rfl⟩

/-- C9: telemetry values are never negative: for every environment,
`get_cpu_temp` returns a value ≥ 0 and `get_gpu_data` returns a pair of
values each ≥ 0. -/
theorem telemetry_never_negative (env : Env) :
    0 ≤ (get_cpu_temp env).1 ∧ 0 ≤ (get_gpu_data env).1.1 ∧
      0 ≤ (get_gpu_data env).1.2 := by
  refine ⟨?_, ?_⟩
  · rw [get_cpu_temp_eq]
    by_cases h : cpuZoneScan env.thermalZones 0 = 0
    · simp only [h, reduceIte]
      cases env.sensorsOutput with
      | none => simp
      | some lines => simpa using sensValue_sensorsScan_le lines 0
    · simpa [h] using cpuZoneScan_le env.thermalZones 0
  · unfold get_gpu_data
    cases env.nvidiaOutput with
    | none => simp
    | some lines =>
      simp only []
      cases hg : gpuScan lines 0 0 with
      | ok v => simpa [hg] using gpuScan_ok_le lines 0 0 v hg
      | error e => simp [hg]

/-- An environment where every external source fails: both zone reads
raise, the `sensors` command and the `nvidia-smi` command exit non-zero,
and so do the two `ipmitool` commands. -/
def envAllFail : Env :=
  { thermalZones := [none, none], sensorsOutput := none, nvidiaOutput := none,
    manualRes := .fail, speedRes := .fail }

/-- C6: the sensor reads never fail outwardly, each failed source
contributing 0 to the relevant maximum: with every source failing the CPU
temperature is 0; a failed `nvidia-smi` yields `(0, 0)`; a failing zone
read is skipped, leaving the maximum as if the zone were absent; a
malformed GPU output line is caught by the outer `except`, yielding
`(0, 0)`; a malformed `sensors` line aborts the fallback loop with the
accumulated maximum kept rather than an exception escaping. -/
theorem sensor_reads_never_fail (env : Env) :
    (env.thermalZones.all Option.isNone → env.sensorsOutput = none →
      (get_cpu_temp env).1 = 0) ∧
    (env.nvidiaOutput = none → (get_gpu_data env).1 = (0, 0)) ∧
    (∀ pre post mt,
      cpuZoneScan (pre ++ none :: post) mt = cpuZoneScan (pre ++ post) mt) ∧
    (∀ lines, gpuScan lines 0 0 = .error () →
      (get_gpu_data { env with nvidiaOutput := some lines }).1 = (0, 0)) ∧
    (∀ lines mt, sensValue (sensorsScan (SensLine.malformed :: lines) mt) = mt) := by
  refine ⟨?_, ?_, ?_, ?_, ?_⟩
  · intro hz hs
    have hzero : cpuZoneScan env.thermalZones 0 = 0 := by
      have : ∀ (zs : List (Option Int)) (mt : Int), zs.all Option.isNone →
          cpuZoneScan zs mt = mt := by
        intro zs
        induction zs with
        | nil => intro mt _; rfl
        | cons z rest ih =>
          intro mt hall
          cases z with
          | none => exact ih mt (by simpa using hall)
          | some m => simp [List.all_cons, Option.isNone] at hall
      exact this env.thermalZones 0 hz
    rw [get_cpu_temp_eq]
    simp [hzero, hs]
  · intro hn
    unfold get_gpu_data
    rw [hn]
  · intro pre post mt
    induction pre generalizing mt with
    | nil => rfl
    | cons z rest ih =>
      cases z with
      | none => exact ih mt
      | some m => exact ih _
  · intro lines herr
    unfold get_gpu_data
    simp [herr]
  · intro lines mt
    rfl

/-- Witness for C6: with every external source failing, both reads return
zeros without aborting. -/
theorem sensor_reads_never_fail_witness :
    (get_cpu_temp envAllFail).1 = 0 ∧ (get_gpu_data envAllFail).1 = (0, 0) :=
  ⟨(sensor_reads_never_fail envAllFail).1 (by decide) rfl,
   (sensor_reads_never_fail envAllFail).2.1 rfl⟩

/-- `get_cpu_temp` exactly as claim C7 words it: the maximum over the
readable per-zone conversions, with the `sensors` fallback consulted
exactly when the primary source yields no readings (no zone file could be
read at all). -/
def get_cpu_temp_claimed (env : Env) : Int × List Cmd :=
  let readings := (env.thermalZones.filterMap id).map (fun m => Int.fdiv m 1000)
  if readings = [] then
    ((match env.sensorsOutput with
      | none => 0
      | some lines => sensValue (sensorsScan lines 0)), [Cmd.sensorsQuery])
  else (readings.foldl max 0, [])

/-- An environment whose one thermal zone reads fine (500 millidegrees,
converting to 0 °C) while `sensors` reports a Package-id line of 60 °C. -/
def envC7 : Env :=
  { thermalZones := [some 500], sensorsOutput := some [SensLine.packageTemp 60],
    nvidiaOutput := none, manualRes := .fail, speedRes := .fail }

/-- Counterexample to C7 as stated: the primary source yields a reading
(the zone is readable, converting to 0 °C), yet the code still consults
`sensors` and returns its 60 °C, where the claimed contract returns 0
without consulting the fallback. -/
theorem cpu_fallback_claim_counterexample :
    get_cpu_temp envC7 ≠ get_cpu_temp_claimed envC7 ∧
    (get_cpu_temp envC7).1 = 60 ∧ (get_cpu_temp_claimed envC7).1 = 0 ∧
    (get_cpu_temp envC7).2 = [Cmd.sensorsQuery] ∧
    envC7.thermalZones.filterMap id ≠ [] := by
  refine ⟨?_, rfl, rfl, rfl, ?_⟩ <;> decide

/-- C7 as amended: `get_cpu_temp` returns the `max`-fold (from 0) of the
floor-converted readable zone readings, and the `sensors` fallback is
consulted — its Package-id maximum used instead — exactly when that fold
is 0, i.e. when no readable zone converts to a positive temperature, not
merely when there are no readings. -/
theorem cpu_fallback_exact (env : Env) :
    (get_cpu_temp env).1 =
      (if ((env.thermalZones.filterMap id).map
            (fun m => Int.fdiv m 1000)).foldl max 0 = 0 then
        (match env.sensorsOutput with
          | none => 0
          | some lines => sensValue (sensorsScan lines 0))
      else ((env.thermalZones.filterMap id).map
        (fun m => Int.fdiv m 1000)).foldl max 0) ∧
    ((get_cpu_temp env).2 = [Cmd.sensorsQuery] ↔
      ((env.thermalZones.filterMap id).map
        (fun m => Int.fdiv m 1000)).foldl max 0 = 0) := by
  rw [get_cpu_temp_eq, cpuZoneScan_eq_foldl]
  by_cases h : ((env.thermalZones.filterMap id).map
      (fun m => Int.fdiv m 1000)).foldl max 0 = 0
  · simp only [h, reduceIte]
    exact ⟨trivial, by simp [h]⟩
  · simp only [h, reduceIte]
    exact ⟨trivial, by simp [h]⟩

end FanControl

namespace FanControl

/-! ### `set_fan_speed`, `restore_auto_fan` and one RUNNING cycle -/

/-- `set_fan_speed(self, speed_hex, reason)`: inside its `try`, issues the
manual-mode enable and then the duty-cycle command through `run_command`
(which itself catches a `CalledProcessError` and returns `None`), logs, and
assigns `self.current_speed = speed_hex`.  The `except Exception` branch —
the only path that would skip the assignment — is unreachable when a
command merely exits non-zero, because `run_command` has already swallowed
that failure and none of the remaining statements raises.  Returns the new
state and the commands issued. -/
def set_fan_speed (env : Env) (st : FCState) (speed_hex : Nat)
    (reason : String) : FCState × List Cmd :=
  let _mode := run_command env.manualRes false
  let _speed := run_command env.speedRes false
  let _reason := reason
  ({ st with current_speed := speed_hex },
    [Cmd.ipmiManualOn, Cmd.ipmiSetSpeed speed_hex])

/-- `restore_auto_fan(self)`: issues the mode-restore `ipmitool` command
through `run_command`; a failure is caught and logged inside its `try`. -/
def restore_auto_fan : List Cmd := [Cmd.ipmiAutoOn]

/-- Actuator commands, as opposed to read-only sensor queries. -/
def isActuatorCmd : Cmd → Bool
  | .ipmiManualOn => true
  | .ipmiSetSpeed _ => true
  | .ipmiAutoOn => true
  | .sensorsQuery => false
  | .nvidiaQuery => false

/-- One iteration of `run`'s `while True` body (the sleep aside): read GPU
then CPU telemetry, log, decide, and call `set_fan_speed` only when
`new_speed != self.current_speed`.  Returns the next state and every
external command the iteration issued. -/
def cycleStep (env : Env) (st : FCState) : FCState × List Cmd :=
  let gpu := get_gpu_data env
  let cpu := get_cpu_temp env
  let d := determine_fan_speed st gpu.1.1 cpu.1 gpu.1.2
  if d.1 ≠ st.current_speed then
    let c := set_fan_speed env st d.1 d.2
    (c.1, gpu.2 ++ cpu.2 ++ c.2)
  else (st, gpu.2 ++ cpu.2)

end FanControl

namespace FanControl

theorem get_gpu_data_cmds (env : Env) : (get_gpu_data env).2 = [Cmd.nvidiaQuery] := by
  unfold get_gpu_data
  cases env.nvidiaOutput with
  | none => rfl
  | some lines =>
    simp only []
    cases gpuScan lines 0 0 <;> rfl

theorem get_cpu_temp_cmds (env : Env) :
    (get_cpu_temp env).2 = [] ∨ (get_cpu_temp env).2 = [Cmd.sensorsQuery] := by
  rw [get_cpu_temp_eq]
  by_cases h : cpuZoneScan env.thermalZones 0 = 0
  · exact Or.inr (by simp [h])
  · exact Or.inl (by simp [h])

theorem sensor_cmds_not_actuator (env : Env) :
    ((get_gpu_data env).2 ++ (get_cpu_temp env).2).filter isActuatorCmd = [] := by
  rw [get_gpu_data_cmds]
  rcases get_cpu_temp_cmds env with h | h <;>
    simp [h, List.filter, isActuatorCmd]

/-- C1 (the code at the claim's failing input): with the `ipmitool`
commands exiting non-zero, `run_command` swallows the failure and
`set_fan_speed` still advances `current_speed` from `FAN_DEFAULT` to the
commanded `FAN_MAX` — the tracked level does not stay at its prior value,
so the next cycle sees no difference to retry. -/
theorem set_fan_speed_advances_on_failed_command :
    ((set_fan_speed envAllFail ⟨FAN_DEFAULT⟩ FAN_MAX "r").1.current_speed
        = FAN_MAX) ∧
      FAN_MAX ≠ FAN_DEFAULT ∧
      run_command envAllFail.speedRes false = none := by
  decide

/-- C5: in a RUNNING cycle, when the decided level equals the tracked
`current_speed` no actuator command is issued and the state is unchanged;
conversely any actuator command issued means the decision differed. -/
theorem cycle_commit_iff_changed (env : Env) (st : FCState) :
    ((determine_fan_speed st (get_gpu_data env).1.1 (get_cpu_temp env).1
        (get_gpu_data env).1.2).1 = st.current_speed →
      (cycleStep env st).1 = st ∧
        (cycleStep env st).2.filter isActuatorCmd = []) ∧
    ((cycleStep env st).2.filter isActuatorCmd ≠ [] →
      (determine_fan_speed st (get_gpu_data env).1.1 (get_cpu_temp env).1
        (get_gpu_data env).1.2).1 ≠ st.current_speed) := by
  constructor
  · intro h
    unfold cycleStep
    simp only [h, ne_eq, not_true_eq_false, reduceIte]
    exact ⟨trivial, sensor_cmds_not_actuator env⟩
  · intro hc h
    apply hc
    unfold cycleStep
    simp only [h, ne_eq, not_true_eq_false, reduceIte]
    exact sensor_cmds_not_actuator env

/-- Witness for C5: with every sensor failing the snapshot is all zeros,
the decision is `FAN_DEFAULT`, equal to the tracked level, and the cycle
issues no actuator command and leaves the state untouched. -/
theorem cycle_commit_iff_changed_witness :
    (cycleStep envAllFail ⟨FAN_DEFAULT⟩).1 = ⟨FAN_DEFAULT⟩ ∧
      (cycleStep envAllFail ⟨FAN_DEFAULT⟩).2.filter isActuatorCmd = [] :=
  (cycle_commit_iff_changed envAllFail ⟨FAN_DEFAULT⟩).1 (by decide)

end FanControl

namespace FanControl

/-! ### The shutdown path of `run` -/

/-- Python exception classes relevant to `run`'s handlers, placed in the
hierarchy: `SystemExit` derives only from `BaseException`, so neither
`except KeyboardInterrupt` nor `except Exception` catches it. -/
inductive ExcClass
  | sysExit
  | kbInt
  | exc
deriving DecidableEq, Repr

/-- Whether `run`'s `except KeyboardInterrupt` / `except Exception`
handlers catch an exception of this class. -/
def caughtInRun : ExcClass → Bool
  | .sysExit => false
  | .kbInt => true
  | .exc => true

/-- Exceptions the loop body itself can raise.  The body contains no
`sys.exit` call, so a `SystemExit` can originate only inside the signal
handler (`cleanup`), which the `signalArrives` event models. -/
inductive BodyExc
  | kbInt
  | exc
deriving DecidableEq, Repr

/-- The exception class a body exception belongs to. -/
def BodyExc.toClass : BodyExc → ExcClass
  | .kbInt => .kbInt
  | .exc => .exc

/-- The points within one loop iteration at which an asynchronous
SIGINT/SIGTERM can fire; the installed handler behaves identically at
each. -/
inductive Phase
  | duringGpuRead
  | duringCpuRead
  | duringLogging
  | duringDecide
  | duringCommit
  | duringSleep
deriving DecidableEq, Repr

/-- What one iteration of the `while True` loop amounts to from outside:
it completes against this environment; a termination signal arrives at
some point of it; or the body raises an exception. -/
inductive LoopEvent
  | completes (env : Env)
  | signalArrives (p : Phase)
  | bodyRaises (e : BodyExc)

/-- The externally observable process events of the shutdown property:
one invocation of `restore_auto_fan`, and process exit. -/
inductive Obs
  | restoreAuto
  | exits
deriving DecidableEq, Repr

/-- `cleanup(self, signum=None, frame=None)`: logs, calls
`restore_auto_fan` once, then `sys.exit(0)` — i.e. it produces one restore
invocation and raises `SystemExit`. -/
def cleanupRun : List Obs × ExcClass := ([Obs.restoreAuto], ExcClass.sysExit)

/-- The `while True:` loop of `run` under a finite schedule of loop
events, as the observable events it produces.  A signal runs `cleanup`
inside the handler; the `SystemExit` that `cleanup` raises then unwinds
through `run`'s `try`, re-caught — running `cleanup` again — only if its
class is caught there.  A body exception caught by a matching `except`
runs `cleanup` once, whose `SystemExit` unwinds past the already-entered
handler; an uncaught one would end the process with no restore. -/
def loopRun : List LoopEvent → FCState → List Obs
  | [], _ => []
  | LoopEvent.completes env :: rest, st => loopRun rest (cycleStep env st).1
  | LoopEvent.signalArrives _ :: _, _ =>
      if caughtInRun cleanupRun.2 then
        cleanupRun.1 ++ cleanupRun.1 ++ [Obs.exits]
      else cleanupRun.1 ++ [Obs.exits]
  | LoopEvent.bodyRaises e :: _, _ =>
      if caughtInRun e.toClass then cleanupRun.1 ++ [Obs.exits]
      else [Obs.exits]

/-- `run` from the top: a signal may also arrive before the loop (during
`check_commands` or the initial `set_fan_speed`, both outside the `try`),
where the handler's `SystemExit` unwinds with nothing catching it. -/
def runObs (sigBeforeLoop : Bool) (events : List LoopEvent) (st : FCState) :
    List Obs :=
  if sigBeforeLoop then cleanupRun.1 ++ [Obs.exits]
  else loopRun events st

/-- C2: whenever the process exits — a termination signal before the loop
or at any point of an iteration, or an unexpected exception in the loop
body — `restore_auto_fan` is invoked exactly once, before the exit. -/
theorem shutdown_restores_once (sigBeforeLoop : Bool)
    (events : List LoopEvent) (st : FCState)
    (h : Obs.exits ∈ runObs sigBeforeLoop events st) :
    runObs sigBeforeLoop events st = [Obs.restoreAuto, Obs.exits] := by
  unfold runObs at *
  by_cases hb : sigBeforeLoop
  · simp [hb, cleanupRun]
  · simp only [hb, reduceIte] at h ⊢
    clear hb
    induction events generalizing st with
    | nil => simp [loopRun] at h
    | cons ev rest ih =>
      cases ev with
      | completes env => exact ih _ h
      | signalArrives p => rfl
      | bodyRaises e => cases e <;> rfl

/-- Witness for C2: a SIGTERM arriving before the loop yields exactly one
restore invocation followed by process exit. -/
theorem shutdown_restores_once_witness :
    runObs true [] ⟨FAN_DEFAULT⟩ = [Obs.restoreAuto, Obs.exits] :=
  shutdown_restores_once true [] ⟨FAN_DEFAULT⟩ (by decide)

end FanControl
